import Mathlib

/-!
Shallow embedding of the superstudy learning-platform backend
(`core_app/models.py`, `core_app/views.py`, `core_app/ai_service.py`,
`core_app/utils.py`) together with theorems settling the frozen claims
about it.

Conventions used throughout:
* Python `int` fields become `Int` (or `Nat` where the source can only
  produce non-negative values, e.g. question counts from `.count()`).
* `datetime.date` values become `Int` day ordinals, so "yesterday" is
  `today - 1`.
* Python floating-point arithmetic is modelled exactly: `Float64.round`
  below is IEEE-754 binary64 round-to-nearest, ties-to-even, on exact
  rationals, which is what CPython's `/` and `*` produce for the operand
  ranges arising here.
* The external generative-model call and the process-wide cache are
  external effects; they enter the embedded functions as explicit
  parameters (`Except` for the call outcome, `Option` for the cached
  value), and the Django ORM state enters as an explicit `DB` record.
-/

/-! ## Gamification state (`core_app/models.py`, class `UserProgress`) -/

/-- Embeds the `UserProgress` row of `core_app/models.py`.  `last_activity`
is a `datetime.date`, modelled as an integer day ordinal. -/
structure UserProgress where
  points : Int
  streak : Int
  last_activity : Int
  documents_uploaded : Int
  questions_asked : Int
  quizzes_completed : Int
  flashcards_created : Int
  summaries_generated : Int
deriving Repr, DecidableEq

/-- Python `==` between a `datetime.date` and a `datetime.timedelta`
returns `False` for every pair of operands: `date.__eq__` returns
`NotImplemented` for a non-`date` operand, `timedelta.__eq__` likewise for
a non-`timedelta` operand, and Python then falls back to identity, which
fails for distinct objects.  This models the comparison
`self.last_activity == timedelta(days=1)` in `UserProgress.add_points`. -/
def dateEqTimedelta (_dateOrdinal : Int) (_timedeltaDays : Int) : Bool :=
  false

/-- Embeds `UserProgress.add_points` (`core_app/models.py` lines 230-244).
`today` is the value of `timezone.now().date()` as a day ordinal. -/
def UserProgress.add_points (p : UserProgress) (points_to_add : Int)
    (today : Int) : UserProgress :=
  let p := { p with points := p.points + points_to_add }
  let streak' :=
    if p.last_activity = today then
      p.streak
    else if dateEqTimedelta p.last_activity 1 then
      p.streak + 1
    else
      1
  { p with streak := streak', last_activity := today }

/-- A badge entry as appended by `UserProgress.badges`. -/
structure Badge where
  name : String
  icon : String
deriving Repr, DecidableEq

/-- Embeds the `UserProgress.badges` property (`core_app/models.py` lines
251-302): each threshold test appends one badge to the result list, in
source order. -/
def UserProgress.badges (p : UserProgress) : List Badge :=
  (if p.documents_uploaded ≥ 1 then [⟨"First Upload", "📄"⟩] else []) ++
  ((if p.documents_uploaded ≥ 5 then [⟨"Document Master", "📚"⟩] else []) ++
  ((if p.documents_uploaded ≥ 20 then [⟨"Library Builder", "🏛️"⟩] else []) ++
  ((if p.questions_asked ≥ 10 then [⟨"Curious Learner", "🤔"⟩] else []) ++
  ((if p.questions_asked ≥ 50 then [⟨"Question Pro", "❓"⟩] else []) ++
  ((if p.questions_asked ≥ 100 then [⟨"Inquisitive Mind", "🧠"⟩] else []) ++
  ((if p.quizzes_completed ≥ 5 then [⟨"Quiz Taker", "📝"⟩] else []) ++
  ((if p.quizzes_completed ≥ 20 then [⟨"Quiz Master", "🎓"⟩] else []) ++
  ((if p.quizzes_completed ≥ 50 then [⟨"Test Champion", "🏆"⟩] else []) ++
  ((if p.points ≥ 100 then [⟨"Scholar", "📖"⟩] else []) ++
  ((if p.points ≥ 500 then [⟨"Genius", "💡"⟩] else []) ++
  ((if p.points ≥ 1000 then [⟨"Legend", "⭐"⟩] else []) ++
  ((if p.streak ≥ 3 then [⟨"Consistent", "🔥"⟩] else []) ++
  ((if p.streak ≥ 7 then [⟨"Week Warrior", "⚡"⟩] else []) ++
  ((if p.streak ≥ 30 then [⟨"Monthly Master", "🌟"⟩] else []) ++
  ((if p.flashcards_created ≥ 10 then [⟨"Flashcard Fan", "🃏"⟩] else []) ++
  ((if p.summaries_generated ≥ 5 then [⟨"Summary Seeker", "📋"⟩] else []) ++
  ([] : List Badge)))))))))))))))))

/-- The badge names earned by a progress record. -/
def UserProgress.badgeNames (p : UserProgress) : List String :=
  p.badges.map Badge.name

/-! ## Exact binary64 model for the quiz score
(`core_app/views.py` line 557: `int((correct_answers / total_questions) * 100)`) -/

namespace Float64

/-- Fuel-bounded search for the binary exponent of a positive fraction
`n / d ≥ 1`: returns `e` with `2 ^ e ≤ n / d < 2 ^ (e + 1)`.  Fuel 1100
exceeds the whole binary64 exponent range. -/
def expUp : Nat → Nat → Nat → Nat
  | 0, _, _ => 0
  | fuel + 1, n, d => if n < 2 * d then 0 else expUp fuel n (2 * d) + 1

/-- Fuel-bounded search for a positive fraction `n / d < 1`: returns
`k ≥ 1` with `2 ^ (-k) ≤ n / d < 2 ^ (1 - k)`. -/
def expDown : Nat → Nat → Nat → Nat
  | 0, _, _ => 1
  | fuel + 1, n, d => if d ≤ 2 * n then 1 else expDown fuel (2 * n) d + 1

/-- `⌊log₂ (n / d)⌋` for a positive fraction. -/
def ilog2 (n d : Nat) : Int :=
  if d ≤ n then (expUp 1100 n d : Int) else -(expDown 1100 n d : Int)

/-- Round the non-negative fraction `n / d` to the nearest natural number,
ties to even. -/
def roundHalfEven (n d : Nat) : Nat :=
  let f := n / d
  let r2 := 2 * (n % d)
  if r2 < d then f
  else if d < r2 then f + 1
  else if f % 2 = 0 then f else f + 1

/-- Round the non-negative exact fraction `n / d` to the nearest IEEE-754
binary64 value (round-to-nearest, ties-to-even).  The result is returned
as a mantissa/exponent pair `(m, e)` denoting the dyadic rational
`m * 2 ^ (e - 52)` with `2 ^ 52 ≤ m ≤ 2 ^ 53` when `n ≠ 0`.  The operands
in this development are far from the overflow and subnormal ranges, so
only the normal case matters; `0` maps to `(0, 0)`. -/
def round (n d : Nat) : Nat × Int :=
  if n = 0 then (0, 0)
  else
    let e := ilog2 n d
    let m :=
      if e ≤ 52 then roundHalfEven (n * 2 ^ (52 - e).toNat) d
      else roundHalfEven n (d * 2 ^ (e - 52).toNat)
    (m, e)

/-- The exact fraction `(numerator, denominator)` denoted by a binary64
mantissa/exponent pair. -/
def toFraction (me : Nat × Int) : Nat × Nat :=
  if 52 ≤ me.2 then (me.1 * 2 ^ (me.2 - 52).toNat, 1)
  else (me.1, 2 ^ (52 - me.2).toNat)

/-- `⌊·⌋` of a non-negative binary64 value, i.e. Python `int(·)` on a
non-negative float. -/
def floor (me : Nat × Int) : Nat :=
  if 52 ≤ me.2 then me.1 * 2 ^ (me.2 - 52).toNat
  else me.1 / 2 ^ (52 - me.2).toNat

end Float64

/-- Embeds the score computation of `submit_quiz` (`core_app/views.py`
line 557): `int((correct_answers / total_questions) * 100) if
total_questions > 0 else 0`.  CPython evaluates the division and the
multiplication in IEEE-754 binary64 with round-to-nearest, ties-to-even
(both correctly rounded), and `int(·)` truncates toward zero (floor, since
the value is non-negative); each step is modelled exactly. -/
def submitQuizScore (correct_answers total_questions : Nat) : Nat :=
  if 0 < total_questions then
    let division := Float64.round correct_answers total_questions
    let frac := Float64.toFraction division
    let product := Float64.round (frac.1 * 100) frac.2
    Float64.floor product
  else 0

/-- Embeds `points_earned = 15 if score >= 80 else (10 if score >= 60 else
5)` (`core_app/views.py` line 570). -/
def submitQuizPointsEarned (score : Nat) : Nat :=
  if score ≥ 80 then 15 else if score ≥ 60 then 10 else 5

/-- Embeds the response message of `submit_quiz` (`core_app/views.py` line
581). -/
def submitQuizMessage (score : Nat) : String :=
  if score ≥ 80 then "Excellent!"
  else if score ≥ 60 then "Good job!"
  else "Keep practicing!"

/-! ## MD5 and the AI-response cache keys (`core_app/ai_service.py`)

`get_stable_hash` (lines 26-33) is `hashlib.md5(text.encode('utf-8',
errors='ignore')).hexdigest()`; MD5 (RFC 1321) is embedded below over
byte lists, with 32-bit words as `Nat` reduced modulo `2 ^ 32`. -/

namespace MD5

/-- The per-step left-rotation amounts of MD5. -/
def S : List Nat :=
  [7, 12, 17, 22, 7, 12, 17, 22, 7, 12, 17, 22, 7, 12, 17, 22,
   5, 9, 14, 20, 5, 9, 14, 20, 5, 9, 14, 20, 5, 9, 14, 20,
   4, 11, 16, 23, 4, 11, 16, 23, 4, 11, 16, 23, 4, 11, 16, 23,
   6, 10, 15, 21, 6, 10, 15, 21, 6, 10, 15, 21, 6, 10, 15, 21]

/-- The MD5 sine-derived constants `K[i] = floor(abs(sin(i + 1)) * 2^32)`. -/
def K : List Nat :=
  [3614090360, 3905402710, 606105819, 3250441966,
   4118548399, 1200080426, 2821735955, 4249261313,
   1770035416, 2336552879, 4294925233, 2304563134,
   1804603682, 4254626195, 2792965006, 1236535329,
   4129170786, 3225465664, 643717713, 3921069994,
   3593408605, 38016083, 3634488961, 3889429448,
   568446438, 3275163606, 4107603335, 1163531501,
   2850285829, 4243563512, 1735328473, 2368359562,
   4294588738, 2272392833, 1839030562, 4259657740,
   2763975236, 1272893353, 4139469664, 3200236656,
   681279174, 3936430074, 3572445317, 76029189,
   3654602809, 3873151461, 530742520, 3299628645,
   4096336452, 1126891415, 2878612391, 4237533241,
   1700485571, 2399980690, 4293915773, 2240044497,
   1873313359, 4264355552, 2734768916, 1309151649,
   4149444226, 3174756917, 718787259, 3951481745]

/-- Left-rotate a 32-bit word. -/
def rotl (x s : Nat) : Nat :=
  ((x <<< s) ||| (x >>> (32 - s))) % 4294967296

/-- 32-bit bitwise complement. -/
def compl32 (x : Nat) : Nat := 4294967295 - x

/-- Little-endian byte encoding of `n` on `k` bytes. -/
def toLEBytes (k n : Nat) : List Nat :=
  (List.range k).map fun i => (n >>> (8 * i)) % 256

/-- The `g`-th little-endian 32-bit word of a 64-byte chunk. -/
def word (chunk : List Nat) (g : Nat) : Nat :=
  chunk.getD (4 * g) 0 + chunk.getD (4 * g + 1) 0 * 256 +
    chunk.getD (4 * g + 2) 0 * 65536 + chunk.getD (4 * g + 3) 0 * 16777216

/-- One MD5 round step on the state `(a, b, c, d)`. -/
def step (chunk : List Nat) (st : Nat × Nat × Nat × Nat) (i : Nat) :
    Nat × Nat × Nat × Nat :=
  let (a, b, c, d) := st
  let (f, g) :=
    if i < 16 then ((b &&& c) ||| (compl32 b &&& d), i)
    else if i < 32 then ((d &&& b) ||| (compl32 d &&& c), (5 * i + 1) % 16)
    else if i < 48 then (b ^^^ c ^^^ d, (3 * i + 5) % 16)
    else (c ^^^ (b ||| compl32 d), (7 * i) % 16)
  let f := (f + a + K.getD i 0 + word chunk g) % 4294967296
  (d, (b + rotl f (S.getD i 0)) % 4294967296, b, c)

/-- Process one 64-byte chunk, updating the running digest state. -/
def processChunk (st : Nat × Nat × Nat × Nat) (chunk : List Nat) :
    Nat × Nat × Nat × Nat :=
  let (a0, b0, c0, d0) := st
  let (a, b, c, d) := (List.range 64).foldl (step chunk) (a0, b0, c0, d0)
  ((a0 + a) % 4294967296, (b0 + b) % 4294967296,
   (c0 + c) % 4294967296, (d0 + d) % 4294967296)

/-- Split a byte list into 64-byte chunks (fuel-bounded structural
recursion; the fuel is the list length, which always suffices). -/
def chunksOf64 : Nat → List Nat → List (List Nat)
  | 0, _ => []
  | _ + 1, [] => []
  | fuel + 1, l => l.take 64 :: chunksOf64 fuel (l.drop 64)

/-- MD5 padding: append `0x80`, zero-pad to 56 mod 64, then the original
bit length on 8 little-endian bytes. -/
def pad (msg : List Nat) : List Nat :=
  let zeros := (119 - msg.length % 64) % 64
  msg ++ [128] ++ List.replicate zeros 0 ++ toLEBytes 8 (msg.length * 8)

/-- The 16-byte MD5 digest of a byte list. -/
def digestBytes (msg : List Nat) : List Nat :=
  let padded := pad msg
  let (a, b, c, d) :=
    (chunksOf64 (padded.length + 1) padded).foldl processChunk
      (1732584193, 4023233417, 2562383102, 271733878)
  toLEBytes 4 a ++ toLEBytes 4 b ++ toLEBytes 4 c ++ toLEBytes 4 d

/-- Lower-case hexadecimal digit. -/
def hexChar (n : Nat) : Char :=
  if n < 10 then Char.ofNat (48 + n) else Char.ofNat (87 + n)

/-- Lower-case hexadecimal rendering of a byte list. -/
def hexString (bytes : List Nat) : String :=
  ⟨bytes.flatMap fun b => [hexChar (b / 16), hexChar (b % 16)]⟩

/-- UTF-8 encoding of one Unicode scalar value, as CPython's
`str.encode('utf-8')` produces for each code point. -/
def utf8Char (c : Char) : List Nat :=
  let n := c.toNat
  if n < 128 then [n]
  else if n < 2048 then [192 + n / 64, 128 + n % 64]
  else if n < 65536 then
    [224 + n / 4096, 128 + n / 64 % 64, 128 + n % 64]
  else
    [240 + n / 262144, 128 + n / 4096 % 64, 128 + n / 64 % 64, 128 + n % 64]

/-- UTF-8 encoding of a string as a byte list. -/
def utf8Bytes (s : String) : List Nat :=
  s.data.flatMap utf8Char

end MD5

/-- Embeds `get_stable_hash` (`core_app/ai_service.py` lines 26-33):
`hashlib.md5(text.encode('utf-8', errors='ignore')).hexdigest()`.  The
input is always a string here, so the `isinstance` guard is vacuous, and
`errors='ignore'` never drops bytes because every Lean string is valid
Unicode. -/
def get_stable_hash (text : String) : String :=
  MD5.hexString (MD5.digestBytes (MD5.utf8Bytes text))

/-- Embeds the cache key of `get_ai_response` (`core_app/ai_service.py`
lines 82-84): `f"ai_chat_{text_hash}_{q_hash}_{language}"` with
`text_hash = get_stable_hash(document_text[:1000])` and
`q_hash = get_stable_hash(user_question)`.  Python's `[:1000]` slices by
code point, i.e. `String.take 1000`. -/
def chatCacheKey (document_text user_question language : String) : String :=
  "ai_chat_" ++ get_stable_hash (document_text.take 1000) ++ "_" ++
    get_stable_hash user_question ++ "_" ++ language

/-- Embeds the cache key of `generate_summary` (`core_app/ai_service.py`
lines 125-126): `f"ai_summary_{text_hash}_{language}"`. -/
def summaryCacheKey (document_text language : String) : String :=
  "ai_summary_" ++ get_stable_hash (document_text.take 1000) ++ "_" ++
    language

/-- Embeds the cache key of `generate_flashcards` (`core_app/ai_service.py`
lines 166-167): `f"ai_flashcards_{text_hash}_{num_cards}"`.  No language
code enters the key — `generate_flashcards` has no language parameter. -/
def flashcardsCacheKey (document_text : String) (num_cards : Nat) : String :=
  "ai_flashcards_" ++ get_stable_hash (document_text.take 1000) ++ "_" ++
    toString num_cards

/-- Embeds the cache key of `generate_quiz` (`core_app/ai_service.py`
lines 205-206): `f"ai_quiz_{text_hash}_{num_questions}"`. -/
def quizCacheKey (document_text : String) (num_questions : Nat) : String :=
  "ai_quiz_" ++ get_stable_hash (document_text.take 1000) ++ "_" ++
    toString num_questions

/-- The cache key governing a flashcard-generation request whose target
language is `language`: since `generate_flashcards` accepts no language
parameter (`core_app/ai_service.py` line 159), the language of the request
cannot reach the key. -/
def flashcardsKeyForRequest (document_text : String) (num_cards : Nat)
    (_language : String) : String :=
  flashcardsCacheKey document_text num_cards

/-- The cache key governing a quiz-generation request whose target
language is `language`: since `generate_quiz` accepts no language
parameter (`core_app/ai_service.py` line 198), the language of the request
cannot reach the key. -/
def quizKeyForRequest (document_text : String) (num_questions : Nat)
    (_language : String) : String :=
  quizCacheKey document_text num_questions

/-! ## AI Orchestrator call outcomes (`core_app/ai_service.py`)

Each of the four feature functions first consults the cache, then calls
the external model inside `try/except`.  The cache lookup result and the
external call outcome are external effects and enter as parameters:
`cacheVal` is what `cache.get(cache_key)` returned (`none` = absent), and
`modelOutcome` is the result of `model.generate_content(prompt)` followed
by `.text` (`Except.error` = any exception raised in the `try` block).
Every function returns a plain `String`: the embedded code has no failure
channel, mirroring that the Python functions catch every exception. -/

/-- Embeds the control flow of `get_ai_response` (`core_app/ai_service.py`
lines 74-116) after the cache key is built: `if cached_response:` is
Python truthiness, so an empty cached string is treated as a miss. -/
def get_ai_response (cacheVal : Option String)
    (modelOutcome : Except String String) : String :=
  let afterCache :=
    match modelOutcome with
    | .ok answer => answer
    | .error _ => "Error generating response."
  match cacheVal with
  | some cached => if cached ≠ "" then cached else afterCache
  | none => afterCache

/-- Embeds the control flow of `generate_summary` (`core_app/ai_service.py`
lines 118-157). -/
def generate_summary (cacheVal : Option String)
    (modelOutcome : Except String String) : String :=
  let afterCache :=
    match modelOutcome with
    | .ok summary => summary
    | .error _ => "Error generating summary."
  match cacheVal with
  | some cached => if cached ≠ "" then cached else afterCache
  | none => afterCache

/-- Embeds the control flow of `generate_flashcards`
(`core_app/ai_service.py` lines 159-196). -/
def generate_flashcards (cacheVal : Option String)
    (modelOutcome : Except String String) : String :=
  let afterCache :=
    match modelOutcome with
    | .ok cards => cards
    | .error _ => "Error generating flashcards."
  match cacheVal with
  | some cached => if cached ≠ "" then cached else afterCache
  | none => afterCache

/-- Embeds the control flow of `generate_quiz` (`core_app/ai_service.py`
lines 198-237). -/
def generate_quiz (cacheVal : Option String)
    (modelOutcome : Except String String) : String :=
  let afterCache :=
    match modelOutcome with
    | .ok quiz => quiz
    | .error _ => "Error generating quiz."
  match cacheVal with
  | some cached => if cached ≠ "" then cached else afterCache
  | none => afterCache

/-! ## Text cleaning (`core_app/utils.py`, `clean_extracted_text`)

The function is embedded over `List Char`, with Python `str.split('\n')`,
`str.strip()`, `'\n'.join`, `in` and `str.replace` each given a direct
recursive model. -/

/-- Python `str.isspace` / `str.strip` whitespace: the ASCII whitespace
and control separators plus the Unicode space separators recognised by
CPython. -/
def pyIsSpace (c : Char) : Bool :=
  c.toNat ∈ [9, 10, 11, 12, 13, 28, 29, 30, 31, 32, 133, 160, 5760,
             8192, 8193, 8194, 8195, 8196, 8197, 8198, 8199, 8200, 8201,
             8202, 8232, 8233, 8239, 8287, 12288]

/-- Remove trailing characters satisfying `pyIsSpace`. -/
def dropTrailingSpace (l : List Char) : List Char :=
  (l.reverse.dropWhile pyIsSpace).reverse

/-- Python `str.strip()` on a character list. -/
def pyStripList (l : List Char) : List Char :=
  dropTrailingSpace (l.dropWhile pyIsSpace)

/-- Python `str.strip()`. -/
def pyStrip (s : String) : String :=
  ⟨pyStripList s.data⟩

/-- Python `text.split('\n')` on a character list: splits at every
newline, keeping empty pieces, and yields `[[]]` on the empty input. -/
def splitNL : List Char → List (List Char)
  | [] => [[]]
  | '\n' :: rest => [] :: splitNL rest
  | c :: rest =>
    match splitNL rest with
    | [] => [[c]]
    | piece :: pieces => (c :: piece) :: pieces

/-- Python `'\n'.join` on character lists. -/
def joinNL : List (List Char) → List Char
  | [] => []
  | [l] => l
  | l :: ls => l ++ '\n' :: joinNL ls

/-- Python `'\n\n\n' in text`. -/
def hasTripleNL : List Char → Bool
  | '\n' :: '\n' :: '\n' :: _ => true
  | _ :: rest => hasTripleNL rest
  | [] => false

/-- Proof-side strengthening of `hasTripleNL`: two adjacent newlines.  The
cleaned line join below has not even two adjacent newlines, hence no
three. -/
def hasDoubleNL : List Char → Bool
  | '\n' :: '\n' :: _ => true
  | _ :: rest => hasDoubleNL rest
  | [] => false

/-- Python `text.replace('\n\n\n', '\n\n')`: replace every non-overlapping
occurrence, scanning left to right. -/
def replaceTripleNL : List Char → List Char
  | '\n' :: '\n' :: '\n' :: rest => '\n' :: '\n' :: replaceTripleNL rest
  | c :: rest => c :: replaceTripleNL rest
  | [] => []

/-- The `while '\n\n\n' in text:` loop of `clean_extracted_text`
(`core_app/utils.py` lines 166-167), fuel-bounded; each iteration strictly
shortens the text, so fuel equal to the length always suffices. -/
def collapseNL : Nat → List Char → List Char
  | 0, l => l
  | fuel + 1, l => if hasTripleNL l then collapseNL fuel (replaceTripleNL l) else l

/-- The per-line pass of `clean_extracted_text` (`core_app/utils.py` lines
147-160): strip each line, drop empty lines, and append marker lines and
other non-empty lines alike. -/
def cleanLine (line : List Char) : Option (List Char) :=
  let line := pyStripList line
  if line = [] then none
  else if ['-', '-', '-'].isPrefixOf line then some line
  else some line

/-- Embeds `clean_extracted_text` (`core_app/utils.py` lines 133-169):
`if not text: return ""`, split into lines, strip / filter lines, join
with `'\n'`, collapse runs of three-plus newlines, and strip the result. -/
def clean_extracted_text (s : String) : String :=
  if s = "" then ""
  else
    let cleaned_lines := (splitNL s.data).filterMap cleanLine
    let text := joinNL cleaned_lines
    let text := collapseNL text.length text
    ⟨pyStripList text⟩

/-! ## View handlers (`core_app/views.py`)

The Django ORM state visible to the claims is embedded as an explicit
record of rows, and each handler becomes a pure function from the request
data and the external-effect outcomes to a response and the new state.
Authentication and `get_object_or_404` ownership filtering appear as the
row lookups the source performs. -/

/-- A `Document` row (`core_app/models.py`), with the fields the claims
touch. -/
structure DocumentRow where
  id : Nat
  owner : Nat
  title : String
  text_content : String
  language : String
  processed : Bool
deriving Repr, DecidableEq

/-- A `Flashcard` row. -/
structure FlashcardRow where
  docId : Nat
  question : String
  answer : String
  language : String
  order : Nat
deriving Repr, DecidableEq

/-- A `Quiz` row. -/
structure QuizRow where
  id : Nat
  docId : Nat
  title : String
  language : String
deriving Repr, DecidableEq

/-- A `QuizQuestion` row. -/
structure QuizQuestionRow where
  quizId : Nat
  question_text : String
  correct_answer : String
  order : Nat
deriving Repr, DecidableEq

/-- A `Summary` row (one-to-one with `Document`). -/
structure SummaryRow where
  docId : Nat
  content : String
  key_points : String
  language : String
deriving Repr, DecidableEq

/-- The ORM state the embedded handlers read and write. -/
structure DB where
  documents : List DocumentRow
  flashcards : List FlashcardRow
  quizzes : List QuizRow
  quizQuestions : List QuizQuestionRow
  summaries : List SummaryRow
  progress : UserProgress
deriving Repr, DecidableEq

/-- `get_object_or_404(Document, id=document_id, user=request.user)`. -/
def DB.findDocument (db : DB) (documentId userId : Nat) :
    Option DocumentRow :=
  db.documents.find? fun d => d.id = documentId && d.owner = userId

/-- Python keyword-argument binding: a call with keyword arguments
`kwargs` against a function whose parameter names are `params` raises
`TypeError` (an unexpected keyword argument) unless every keyword names a
parameter. -/
def pyKwargsAccepted (params kwargs : List String) : Bool :=
  kwargs.all fun k => params.contains k

/-- The parameter names of `generate_flashcards`
(`core_app/ai_service.py` line 159): `(document_text, num_cards=5)`. -/
def generateFlashcardsParams : List String :=
  ["document_text", "num_cards"]

/-- The keyword arguments `create_flashcards` passes
(`core_app/views.py` lines 361-365): `num_cards=...`, `language=...`
(plus `document.text_content` positionally). -/
def createFlashcardsKwargs : List String :=
  ["num_cards", "language"]

/-- The parameter names of `generate_quiz` (`core_app/ai_service.py`
line 198): `(document_text, num_questions=3)`. -/
def generateQuizParams : List String :=
  ["document_text", "num_questions"]

/-- The keyword arguments `create_quiz` passes (`core_app/views.py` lines
454-458): `num_questions=...`, `language=...`. -/
def createQuizKwargs : List String :=
  ["num_questions", "language"]

/-- Embeds the `create_flashcards` view (`core_app/views.py` lines
337-408).  `valid` is the serializer verdict, `profileLang` the user's
profile language, and `cacheVal`/`modelOutcome` the external effects of
`generate_flashcards` (reached only if the call binds).  The call passes
the keyword argument `language`, which `generate_flashcards` does not
accept, so when the keyword check fails the `TypeError` is caught by the
view's `except Exception` and the handler answers 500 with the state
untouched. -/
def create_flashcards (db : DB) (userId : Nat) (valid : Bool)
    (documentId _num_cards : Nat) (reqLang : Option String)
    (profileLang : String) (cacheVal : Option String)
    (modelOutcome : Except String String) : Nat × DB :=
  if !valid then (400, db)
  else
    match db.findDocument documentId userId with
    | none => (404, db)
    | some doc =>
      let _language := reqLang.getD profileLang
      if !doc.processed then (400, db)
      else if pyKwargsAccepted generateFlashcardsParams
          createFlashcardsKwargs then
        -- The branch the source intends: generate, replace the old set,
        -- parse.  `generate_flashcards` returns a string, so the
        -- `isinstance(flashcard_data, list)` guard fails and zero cards
        -- are created.
        let flashcard_data := generate_flashcards cacheVal modelOutcome
        if flashcard_data = "" then (500, db)
        else
          let db := { db with
            flashcards := db.flashcards.filter fun f => f.docId ≠ documentId }
          let created : List FlashcardRow := []
          let progress := { db.progress with
            flashcards_created :=
              db.progress.flashcards_created + created.length }
          (201, { db with progress := progress.add_points 7 0 })
      else (500, db)

/-- Embeds the `create_quiz` view (`core_app/views.py` lines 430-498),
analogously to `create_flashcards`: the call passes `language`, which
`generate_quiz` does not accept. -/
def create_quiz (db : DB) (userId : Nat) (valid : Bool)
    (documentId _num_questions newQuizId : Nat) (reqLang : Option String)
    (profileLang : String) (cacheVal : Option String)
    (modelOutcome : Except String String) : Nat × DB :=
  if !valid then (400, db)
  else
    match db.findDocument documentId userId with
    | none => (404, db)
    | some doc =>
      let language := reqLang.getD profileLang
      if !doc.processed then (400, db)
      else if pyKwargsAccepted generateQuizParams createQuizKwargs then
        let question_data := generate_quiz cacheVal modelOutcome
        if question_data = "" then (500, db)
        else
          -- `question_data` is a string, so `isinstance(..., list)` fails
          -- and the atomic block creates a quiz with no questions.
          let quiz : QuizRow :=
            { id := newQuizId, docId := documentId,
              title := "Quiz: " ++ doc.title.take 50, language := language }
          (201, { db with quizzes := quiz :: db.quizzes })
      else (500, db)

/-- The effect of `process_document` (`core_app/utils.py` lines 85-130)
on a freshly created document row: extraction and cleaning produce `text`;
if `text` is non-empty the row is saved with `text_content = text` and
`processed = True`, otherwise the row is untouched.  `process_document`
catches every exception internally and returns `""`. -/
def process_document_save (doc : DocumentRow) (text : String) :
    DocumentRow :=
  if text ≠ "" then { doc with text_content := text, processed := true }
  else doc

/-- Embeds the `upload_document` view (`core_app/views.py` lines 59-114).
`valid` is the `DocumentUploadSerializer` verdict; `newId` the primary key
of the created row; `outcome` is `.ok text` when the `try` block runs
`process_document` to completion with result `text`, and `.error ()` when
anything in the `try` block raises (the `except` branch).  `today` is the
current date for `add_points`. -/
def upload_document (db : DB) (userId : Nat) (valid : Bool)
    (newId : Nat) (title language : String) (outcome : Except Unit String)
    (today : Int) : Nat × DB :=
  if !valid then (400, db)
  else
    let doc : DocumentRow :=
      { id := newId, owner := userId, title := title, text_content := "",
        language := language, processed := false }
    let db1 := { db with documents := doc :: db.documents }
    match outcome with
    | .error _ =>
      -- `except Exception`: `document.delete()` then 500.
      (500, { db1 with
        documents := db1.documents.filter fun d => d.id ≠ newId })
    | .ok text =>
      if text = "" then
        -- `if not text`: `document.delete()` then 400.
        (400, { db1 with
          documents := db1.documents.filter fun d => d.id ≠ newId })
      else
        let db2 := { db1 with
          documents := db1.documents.map fun (d : DocumentRow) =>
            if d.id = newId then process_document_save d text else d }
        let progress := { db2.progress with
          documents_uploaded := db2.progress.documents_uploaded + 1 }
        (201, { db2 with progress := progress.add_points 10 today })

/-- Embeds the `create_summary` view (`core_app/views.py` lines 251-315).
The response carries the serialized summary row when one is returned.
`hasattr(document, 'summary')` is the existence of a `Summary` row for the
document; `generate_summary`'s external effects enter as
`cacheVal`/`modelOutcome`. -/
def create_summary (db : DB) (userId : Nat) (valid : Bool)
    (documentId : Nat) (reqLang : Option String) (profileLang : String)
    (cacheVal : Option String) (modelOutcome : Except String String)
    (today : Int) : (Nat × Option SummaryRow) × DB :=
  if !valid then ((400, none), db)
  else
    match db.findDocument documentId userId with
    | none => ((404, none), db)
    | some doc =>
      let language := reqLang.getD profileLang
      if !doc.processed then ((400, none), db)
      else
        match db.summaries.find? fun s => s.docId = documentId with
        | some existing => ((200, some existing), db)
        | none =>
          let summary_data := generate_summary cacheVal modelOutcome
          -- `summary_data` is a string, so `content = summary_data` and
          -- `key_points = ''`.
          let summary : SummaryRow :=
            { docId := documentId, content := summary_data,
              key_points := "", language := language }
          let db := { db with summaries := summary :: db.summaries }
          let progress := { db.progress with
            summaries_generated := db.progress.summaries_generated + 1 }
          ((201, some summary), { db with progress := progress.add_points 8 today })

/-! ## Theorems settling the claims -/

/-- C1: the claim states that when `last_activity` is exactly one day
before today the streak is incremented.  The code instead compares the
date `last_activity` with the duration `timedelta(days=1)`, which is never
true, so on a consecutive-day activity the streak resets to 1.  Evaluated
here at a concrete failing input: yesterday was day 738000, today is day
738001, the stored streak is 5; the claim requires streak 6, the code
yields streak 1 (while points and `last_activity` are updated as the claim
says). -/
theorem add_points_consecutive_day_resets_streak :
    let p : UserProgress :=
      { points := 40, streak := 5, last_activity := 738000,
        documents_uploaded := 3, questions_asked := 2,
        quizzes_completed := 1, flashcards_created := 0,
        summaries_generated := 0 }
    738001 - p.last_activity = 1 ∧
    (p.add_points 10 738001).streak = 1 ∧
    (p.add_points 10 738001).streak ≠ 6 ∧
    (p.add_points 10 738001).points = 50 ∧
    (p.add_points 10 738001).last_activity = 738001 := by
  decide

/-- C2, counterexample: the recorded score is not
`round(100 × correct_answers / total_questions)`.  With 2 correct answers
out of 3 questions the code stores `int((2 / 3) * 100) = 66`, while the
nearest integer to `100 × 2 / 3` is 67 (`Float64.roundHalfEven 200 3`
computes the exact rounding of the rational 200/3). -/
theorem submit_quiz_score_not_rounded :
    submitQuizScore 2 3 = 66 ∧ Float64.roundHalfEven 200 3 = 67 ∧
    (66 : Nat) ≠ 67 := by
  decide

/-- C2, amended: the recorded score truncates rather than rounds.  For
every quiz size the API can produce (`GenerateQuizSerializer` caps
`num_questions` at 15) and every `correct_answers ≤ total_questions`, the
score equals `⌊100 × correct_answers / total_questions⌋` when
`total_questions > 0`, equals 0 when `total_questions = 0`, and lies in
[0, 100]. -/
theorem submit_quiz_score_floor (t : Nat) (ht : t ≤ 15) (c : Nat)
    (hc : c ≤ t) :
    (0 < t → submitQuizScore c t = 100 * c / t) ∧
    (t = 0 → submitQuizScore c t = 0) ∧
    submitQuizScore c t ≤ 100 := by
  have H : ∀ t : Nat, t ≤ 15 → ∀ c : Nat, c ≤ t →
      (0 < t → submitQuizScore c t = 100 * c / t) ∧
      (t = 0 → submitQuizScore c t = 0) ∧
      submitQuizScore c t ≤ 100 := by decide
  exact H t ht c hc

/-- Witness for `submit_quiz_score_floor` at `total_questions = 5`,
`correct_answers = 4`. -/
theorem submit_quiz_score_floor_witness :
    (0 < 5 → submitQuizScore 4 5 = 100 * 4 / 5) ∧
    (5 = 0 → submitQuizScore 4 5 = 0) ∧
    submitQuizScore 4 5 ≤ 100 :=
  submit_quiz_score_floor 5 (by decide) 4 (by decide)

/-- C5: quiz submissions award 15 points with message "Excellent!" when
the score is at least 80, 10 points with "Good job!" when it is in
[60, 80), and 5 points with "Keep practicing!" otherwise; with 5 questions
the concrete cases 4, 3 and 1 correct answers give scores 80, 60 and 20
and the corresponding awards. -/
theorem submit_quiz_awards :
    (∀ s : Nat, 80 ≤ s →
      submitQuizPointsEarned s = 15 ∧ submitQuizMessage s = "Excellent!") ∧
    (∀ s : Nat, 60 ≤ s → s < 80 →
      submitQuizPointsEarned s = 10 ∧ submitQuizMessage s = "Good job!") ∧
    (∀ s : Nat, s < 60 →
      submitQuizPointsEarned s = 5 ∧
        submitQuizMessage s = "Keep practicing!") ∧
    (submitQuizScore 4 5 = 80 ∧ submitQuizPointsEarned 80 = 15 ∧
      submitQuizMessage 80 = "Excellent!") ∧
    (submitQuizScore 3 5 = 60 ∧ submitQuizPointsEarned 60 = 10 ∧
      submitQuizMessage 60 = "Good job!") ∧
    (submitQuizScore 1 5 = 20 ∧ submitQuizPointsEarned 20 = 5 ∧
      submitQuizMessage 20 = "Keep practicing!") := by
  refine ⟨fun s hs => ?_, fun s hs hs' => ?_, fun s hs => ?_,
    by decide, by decide, by decide⟩
  · rw [submitQuizPointsEarned, submitQuizMessage, if_pos hs, if_pos hs]
    exact ⟨rfl, rfl⟩
  · rw [submitQuizPointsEarned, submitQuizMessage,
      if_neg (by omega : ¬ s ≥ 80), if_neg (by omega : ¬ s ≥ 80),
      if_pos hs, if_pos hs]
    exact ⟨rfl, rfl⟩
  · rw [submitQuizPointsEarned, submitQuizMessage,
      if_neg (by omega : ¬ s ≥ 80), if_neg (by omega : ¬ s ≥ 80),
      if_neg (by omega : ¬ s ≥ 60), if_neg (by omega : ¬ s ≥ 60)]
    exact ⟨rfl, rfl⟩

/-- Witness for `submit_quiz_awards`: the three threshold clauses applied
at scores 95, 60 and 20. -/
theorem submit_quiz_awards_witness :
    (submitQuizPointsEarned 95 = 15 ∧ submitQuizMessage 95 = "Excellent!") ∧
    (submitQuizPointsEarned 60 = 10 ∧ submitQuizMessage 60 = "Good job!") ∧
    (submitQuizPointsEarned 20 = 5 ∧
      submitQuizMessage 20 = "Keep practicing!") :=
  ⟨submit_quiz_awards.1 95 (by decide),
   submit_quiz_awards.2.1 60 (by decide) (by decide),
   submit_quiz_awards.2.2.1 20 (by decide)⟩

/-- C7: when the cache misses (absent entry, or a falsy empty string) and
the external model call raises any exception, each of the four AI
Orchestrator functions returns its fixed user-safe fallback string; by
construction each embedded function is total, mirroring that the Python
`try/except Exception` blocks never let an exception propagate. -/
theorem ai_failures_return_fallback :
    (∀ (cv : Option String) (e : String), cv = none ∨ cv = some "" →
      get_ai_response cv (.error e) = "Error generating response.") ∧
    (∀ (cv : Option String) (e : String), cv = none ∨ cv = some "" →
      generate_summary cv (.error e) = "Error generating summary.") ∧
    (∀ (cv : Option String) (e : String), cv = none ∨ cv = some "" →
      generate_flashcards cv (.error e) = "Error generating flashcards.") ∧
    (∀ (cv : Option String) (e : String), cv = none ∨ cv = some "" →
      generate_quiz cv (.error e) = "Error generating quiz.") := by
  refine ⟨?_, ?_, ?_, ?_⟩ <;>
    rintro cv e (rfl | rfl) <;>
      simp [get_ai_response, generate_summary, generate_flashcards,
        generate_quiz]

/-- Witness for `ai_failures_return_fallback`: an absent cache entry and a
concrete quota error. -/
theorem ai_failures_return_fallback_witness :
    get_ai_response none (.error "quota exceeded") =
      "Error generating response." ∧
    generate_summary (some "") (.error "quota exceeded") =
      "Error generating summary." ∧
    generate_flashcards none (.error "quota exceeded") =
      "Error generating flashcards." ∧
    generate_quiz none (.error "quota exceeded") =
      "Error generating quiz." :=
  ⟨ai_failures_return_fallback.1 none "quota exceeded" (Or.inl rfl),
   ai_failures_return_fallback.2.1 (some "") "quota exceeded" (Or.inr rfl),
   ai_failures_return_fallback.2.2.1 none "quota exceeded" (Or.inl rfl),
   ai_failures_return_fallback.2.2.2 none "quota exceeded" (Or.inl rfl)⟩

/-- C10: a generate-summary request for an owned, processed document that
already has a `Summary` row returns that row with status 200 and leaves
the whole ORM state — summaries, progress counters and points included —
unchanged; no new `Summary` is created and no points are awarded. -/
theorem create_summary_existing_noop (db : DB) (userId documentId : Nat)
    (reqLang : Option String) (profileLang : String)
    (cacheVal : Option String) (modelOutcome : Except String String)
    (today : Int) (doc : DocumentRow) (s : SummaryRow)
    (hdoc : db.findDocument documentId userId = some doc)
    (hproc : doc.processed = true)
    (hsum : (db.summaries.find? fun s' => s'.docId = documentId) = some s) :
    create_summary db userId true documentId reqLang profileLang cacheVal
      modelOutcome today = ((200, some s), db) := by
  simp [create_summary, hdoc, hproc, hsum]

/-- Witness for `create_summary_existing_noop`: a one-document,
one-summary state. -/
theorem create_summary_existing_noop_witness :
    create_summary
      ⟨[⟨1, 7, "notes.pdf", "cells divide", "en", true⟩], [], [], [],
        [⟨1, "Cells divide.", "", "en"⟩], ⟨40, 2, 738000, 1, 0, 0, 0, 1⟩⟩
      7 true 1 none "en" none (.error "down") 738001 =
    ((200, some ⟨1, "Cells divide.", "", "en"⟩),
      ⟨[⟨1, 7, "notes.pdf", "cells divide", "en", true⟩], [], [], [],
        [⟨1, "Cells divide.", "", "en"⟩], ⟨40, 2, 738000, 1, 0, 0, 0, 1⟩⟩) :=
  create_summary_existing_noop _ 7 1 none "en" none (.error "down") 738001
    ⟨1, 7, "notes.pdf", "cells divide", "en", true⟩
    ⟨1, "Cells divide.", "", "en"⟩ (by decide) (by decide) (by decide)

/-- C4: for an authenticated, validation-passing flashcard- or
quiz-generation request on an owned, processed document, the views call
`generate_flashcards` / `generate_quiz` with a `language` keyword argument
those functions do not accept; the resulting `TypeError` is caught by the
views' `except Exception` handlers, which answer HTTP 500 with the ORM
state untouched — no `Flashcard`, `Quiz` or `QuizQuestion` row is created
and the document's pre-existing flashcards are not deleted. -/
theorem create_flashcards_quiz_language_type_error (db : DB)
    (userId documentId num_cards num_questions newQuizId : Nat)
    (reqLang : Option String) (profileLang : String)
    (cacheVal : Option String) (modelOutcome : Except String String)
    (doc : DocumentRow)
    (hdoc : db.findDocument documentId userId = some doc)
    (hproc : doc.processed = true) :
    pyKwargsAccepted generateFlashcardsParams createFlashcardsKwargs =
        false ∧
    pyKwargsAccepted generateQuizParams createQuizKwargs = false ∧
    create_flashcards db userId true documentId num_cards reqLang
        profileLang cacheVal modelOutcome = (500, db) ∧
    create_quiz db userId true documentId num_questions newQuizId reqLang
        profileLang cacheVal modelOutcome = (500, db) := by
  refine ⟨by decide, by decide, ?_, ?_⟩
  · simp [create_flashcards, hdoc, hproc, pyKwargsAccepted,
      generateFlashcardsParams, createFlashcardsKwargs]
  · simp [create_quiz, hdoc, hproc, pyKwargsAccepted,
      generateQuizParams, createQuizKwargs]

/-- Witness for `create_flashcards_quiz_language_type_error`: a state with
one processed document and one pre-existing flashcard, which survives. -/
theorem create_flashcards_quiz_language_type_error_witness :
    create_flashcards
      ⟨[⟨1, 7, "notes.pdf", "cells divide", "en", true⟩],
        [⟨1, "What divides?", "Cells", "en", 0⟩], [], [], [],
        ⟨0, 0, 0, 1, 0, 0, 1, 0⟩⟩
      7 true 1 10 none "en" none (.ok "Card 1:") =
    (500,
      ⟨[⟨1, 7, "notes.pdf", "cells divide", "en", true⟩],
        [⟨1, "What divides?", "Cells", "en", 0⟩], [], [], [],
        ⟨0, 0, 0, 1, 0, 0, 1, 0⟩⟩) :=
  (create_flashcards_quiz_language_type_error _ 7 1 10 5 99 none "en" none
    (.ok "Card 1:") ⟨1, 7, "notes.pdf", "cells divide", "en", true⟩
    (by decide) (by decide)).2.2.1

/-- One step of the badge-list monotonicity argument: a conditional
singleton prepended to a monotone tail stays monotone when the guarding
threshold is monotone. -/
theorem badge_step_mono {c₁ c₂ : Prop} [Decidable c₁] [Decidable c₂]
    {b : Badge} {l₁ l₂ : List Badge} (hc : c₂ → c₁)
    (hl : ∀ y ∈ l₂, y ∈ l₁) :
    ∀ y ∈ (if c₂ then [b] else []) ++ l₂,
      y ∈ (if c₁ then [b] else []) ++ l₁ := by
  intro y hy
  rcases List.mem_append.1 hy with h | h
  · by_cases h₂ : c₂
    · rw [if_pos h₂] at h
      exact List.mem_append.2 (Or.inl (by rw [if_pos (hc h₂)]; exact h))
    · rw [if_neg h₂] at h
      exact absurd h (List.not_mem_nil y)
  · exact List.mem_append.2 (Or.inr (hl y h))

/-- C6: the badge set is monotone and cumulative — whenever every counter
of progress `A` is at least the corresponding counter of progress `B`,
every badge name earned by `B` is also earned by `A`; in particular
crossing a higher threshold never removes a lower-threshold badge. -/
theorem badges_monotone (A B : UserProgress)
    (h₁ : B.documents_uploaded ≤ A.documents_uploaded)
    (h₂ : B.questions_asked ≤ A.questions_asked)
    (h₃ : B.quizzes_completed ≤ A.quizzes_completed)
    (h₄ : B.points ≤ A.points)
    (h₅ : B.streak ≤ A.streak)
    (h₆ : B.flashcards_created ≤ A.flashcards_created)
    (h₇ : B.summaries_generated ≤ A.summaries_generated) :
    ∀ x ∈ B.badgeNames, x ∈ A.badgeNames := by
  have key : ∀ y ∈ B.badges, y ∈ A.badges := by
    unfold UserProgress.badges
    refine badge_step_mono (by omega) ?_
    refine badge_step_mono (by omega) ?_
    refine badge_step_mono (by omega) ?_
    refine badge_step_mono (by omega) ?_
    refine badge_step_mono (by omega) ?_
    refine badge_step_mono (by omega) ?_
    refine badge_step_mono (by omega) ?_
    refine badge_step_mono (by omega) ?_
    refine badge_step_mono (by omega) ?_
    refine badge_step_mono (by omega) ?_
    refine badge_step_mono (by omega) ?_
    refine badge_step_mono (by omega) ?_
    refine badge_step_mono (by omega) ?_
    refine badge_step_mono (by omega) ?_
    refine badge_step_mono (by omega) ?_
    refine badge_step_mono (by omega) ?_
    refine badge_step_mono (by omega) ?_
    exact fun y hy => hy
  intro x hx
  obtain ⟨b, hb, rfl⟩ := List.mem_map.1 hx
  exact List.mem_map.2 ⟨b, key b hb, rfl⟩

/-- Witness for `badges_monotone`: a larger progress record retains the
"Scholar" badge of a smaller one. -/
theorem badges_monotone_witness :
    "Scholar" ∈ UserProgress.badgeNames
      ⟨650, 4, 0, 6, 12, 5, 10, 5⟩ :=
  badges_monotone ⟨650, 4, 0, 6, 12, 5, 10, 5⟩ ⟨120, 3, 0, 1, 10, 5, 10, 5⟩
    (by decide) (by decide) (by decide) (by decide) (by decide)
    (by decide) (by decide) "Scholar" (by decide)

/-- Left-cancellation for string concatenation. -/
theorem string_append_left_cancel {a b c : String} (h : a ++ b = a ++ c) :
    b = c := by
  apply String.ext
  have hd : a.data ++ b.data = a.data ++ c.data := by
    rw [← String.data_append, ← String.data_append, h]
  exact List.append_cancel_left hd

/-- The character at index 3 of `p ++ r` is that of `p` when `p` is long
enough; index 3 is where the four feature namespaces first differ. -/
theorem data3_of_append {p : String} (r : String) {c : Char}
    (hl : 3 < p.data.length) (hp : p.data[3]? = some c) :
    (p ++ r).data[3]? = some c := by
  rw [String.data_append, List.getElem?_append_left hl, hp]

/-- Every chat cache key starts `ai_chat_`, so its fourth character is
`c`. -/
theorem chatCacheKey_data3 (t q l : String) :
    (chatCacheKey t q l).data[3]? = some 'c' := by
  unfold chatCacheKey
  simp only [String.append_assoc]
  exact data3_of_append _ (by decide) (by decide)

/-- Every summary cache key starts `ai_summary_`, so its fourth character
is `s`. -/
theorem summaryCacheKey_data3 (t l : String) :
    (summaryCacheKey t l).data[3]? = some 's' := by
  unfold summaryCacheKey
  simp only [String.append_assoc]
  exact data3_of_append _ (by decide) (by decide)

/-- Every flashcards cache key starts `ai_flashcards_`, so its fourth
character is `f`. -/
theorem flashcardsCacheKey_data3 (t : String) (n : Nat) :
    (flashcardsCacheKey t n).data[3]? = some 'f' := by
  unfold flashcardsCacheKey
  simp only [String.append_assoc]
  exact data3_of_append _ (by decide) (by decide)

/-- Every quiz cache key starts `ai_quiz_`, so its fourth character is
`q`. -/
theorem quizCacheKey_data3 (t : String) (n : Nat) :
    (quizCacheKey t n).data[3]? = some 'q' := by
  unfold quizCacheKey
  simp only [String.append_assoc]
  exact data3_of_append _ (by decide) (by decide)

/-- Strings whose characters at index 3 differ are different. -/
theorem ne_of_data3 {s₁ s₂ : String} {c₁ c₂ : Char}
    (h₁ : s₁.data[3]? = some c₁) (h₂ : s₂.data[3]? = some c₂)
    (hc : c₁ ≠ c₂) : s₁ ≠ s₂ := by
  intro h
  rw [h, h₂] at h₁
  exact hc (Option.some.inj h₁).symm

/-- C3, counterexample: the flashcard and quiz cache keys contain no
language component at all — `generate_flashcards` and `generate_quiz`
take no language parameter — so two requests that differ only in the
target language ("en" versus "yo") share one cache entry, contradicting
the claim that no two such requests ever do. -/
theorem cache_key_shared_across_languages :
    flashcardsKeyForRequest "Photosynthesis converts light energy." 5 "en" =
      flashcardsKeyForRequest "Photosynthesis converts light energy." 5
        "yo" ∧
    quizKeyForRequest "Photosynthesis converts light energy." 3 "en" =
      quizKeyForRequest "Photosynthesis converts light energy." 3 "yo" ∧
    ("en" : String) ≠ "yo" :=
  ⟨rfl, rfl, by decide⟩

/-- C3, amended: all four features key their cache on the stable MD5 hash
of the first 1000 characters of the document text in a distinct
per-feature namespace; the chat key additionally hashes the question and
embeds the language code, and the summary key embeds the language code, so
for these two features requests differing only in language never share an
entry — but the flashcard and quiz keys combine only the requested item
count with the text hash and ignore the language entirely. -/
theorem cache_key_structure :
    (∀ t q l₁ l₂ : String, l₁ ≠ l₂ →
      chatCacheKey t q l₁ ≠ chatCacheKey t q l₂) ∧
    (∀ t l₁ l₂ : String, l₁ ≠ l₂ →
      summaryCacheKey t l₁ ≠ summaryCacheKey t l₂) ∧
    (∀ (t : String) (n : Nat) (l₁ l₂ : String),
      flashcardsKeyForRequest t n l₁ = flashcardsKeyForRequest t n l₂) ∧
    (∀ (t : String) (n : Nat) (l₁ l₂ : String),
      quizKeyForRequest t n l₁ = quizKeyForRequest t n l₂) ∧
    (∀ t q l t' l', chatCacheKey t q l ≠ summaryCacheKey t' l') ∧
    (∀ t q l t' n, chatCacheKey t q l ≠ flashcardsCacheKey t' n) ∧
    (∀ t q l t' n, chatCacheKey t q l ≠ quizCacheKey t' n) ∧
    (∀ t l t' n, summaryCacheKey t l ≠ flashcardsCacheKey t' n) ∧
    (∀ t l t' n, summaryCacheKey t l ≠ quizCacheKey t' n) ∧
    (∀ t n t' n', flashcardsCacheKey t n ≠ quizCacheKey t' n') ∧
    (∀ t t' q l, t.take 1000 = t'.take 1000 →
      chatCacheKey t q l = chatCacheKey t' q l) ∧
    (∀ t t' l, t.take 1000 = t'.take 1000 →
      summaryCacheKey t l = summaryCacheKey t' l) ∧
    (∀ t t' n, t.take 1000 = t'.take 1000 →
      flashcardsCacheKey t n = flashcardsCacheKey t' n) ∧
    (∀ t t' n, t.take 1000 = t'.take 1000 →
      quizCacheKey t n = quizCacheKey t' n) := by
  refine ⟨?_, ?_, fun t n l₁ l₂ => rfl, fun t n l₁ l₂ => rfl,
    fun t q l t' l' =>
      ne_of_data3 (chatCacheKey_data3 t q l) (summaryCacheKey_data3 t' l')
        (by decide),
    fun t q l t' n =>
      ne_of_data3 (chatCacheKey_data3 t q l) (flashcardsCacheKey_data3 t' n)
        (by decide),
    fun t q l t' n =>
      ne_of_data3 (chatCacheKey_data3 t q l) (quizCacheKey_data3 t' n)
        (by decide),
    fun t l t' n =>
      ne_of_data3 (summaryCacheKey_data3 t l) (flashcardsCacheKey_data3 t' n)
        (by decide),
    fun t l t' n =>
      ne_of_data3 (summaryCacheKey_data3 t l) (quizCacheKey_data3 t' n)
        (by decide),
    fun t n t' n' =>
      ne_of_data3 (flashcardsCacheKey_data3 t n) (quizCacheKey_data3 t' n')
        (by decide),
    ?_, ?_, ?_, ?_⟩
  · intro t q l₁ l₂ hne heq
    unfold chatCacheKey at heq
    exact hne (string_append_left_cancel heq)
  · intro t l₁ l₂ hne heq
    unfold summaryCacheKey at heq
    exact hne (string_append_left_cancel heq)
  · intro t t' q l h
    unfold chatCacheKey
    rw [h]
  · intro t t' l h
    unfold summaryCacheKey
    rw [h]
  · intro t t' n h
    unfold flashcardsCacheKey
    rw [h]
  · intro t t' n h
    unfold quizCacheKey
    rw [h]

/-- Witness for `cache_key_structure`: the hypothesis-bearing clauses
applied at concrete inputs. -/
theorem cache_key_structure_witness :
    chatCacheKey "doc" "why?" "en" ≠ chatCacheKey "doc" "why?" "yo" ∧
    summaryCacheKey "doc" "en" ≠ summaryCacheKey "doc" "yo" ∧
    chatCacheKey "doc" "why?" "en" ≠ summaryCacheKey "doc" "en" ∧
    flashcardsCacheKey "doc" 5 ≠ quizCacheKey "doc" 5 ∧
    chatCacheKey "doc" "why?" "en" = chatCacheKey "doc" "why?" "en" :=
  ⟨cache_key_structure.1 "doc" "why?" "en" "yo" (by decide),
    cache_key_structure.2.1 "doc" "en" "yo" (by decide),
    cache_key_structure.2.2.2.2.1 "doc" "why?" "en" "doc" "en",
    cache_key_structure.2.2.2.2.2.2.2.2.2.1 "doc" 5 "doc" 5,
    cache_key_structure.2.2.2.2.2.2.2.2.2.2.1 "doc" "doc" "why?" "en" rfl⟩

/-- C8: no orphan unprocessed document survives an upload.  For every
upload request against a state not already containing the new row's id:
any document with that id in the final state is processed with non-empty
text, and when extraction completes with no usable text on a valid
request, the response is 400 and the created row is gone. -/
theorem upload_document_no_orphan (db : DB) (userId : Nat) (valid : Bool)
    (newId : Nat) (title language : String) (outcome : Except Unit String)
    (today : Int)
    (hfresh : ∀ d ∈ db.documents, d.id ≠ newId) :
    (∀ d ∈ (upload_document db userId valid newId title language outcome
        today).2.documents,
      d.id = newId → d.processed = true ∧ d.text_content ≠ "") ∧
    (valid = true → outcome = .ok "" →
      (upload_document db userId valid newId title language outcome
          today).1 = 400 ∧
      ∀ d ∈ (upload_document db userId valid newId title language outcome
          today).2.documents, d.id ≠ newId) := by
  unfold upload_document
  cases valid with
  | false =>
    refine ⟨?_, fun h => absurd h (by decide)⟩
    intro d hd hid
    exact absurd hid (hfresh d hd)
  | true =>
    simp only [Bool.not_true, Bool.false_eq_true, if_false]
    cases outcome with
    | error e =>
      refine ⟨?_, fun _ h => by cases h⟩
      intro d hd hid
      have := (List.mem_filter.1 hd).2
      simp only [decide_eq_true_eq] at this
      exact absurd hid this
    | ok text =>
      dsimp only
      by_cases htext : text = ""
      · subst htext
        simp only [if_pos rfl]
        refine ⟨?_, fun _ _ => ⟨rfl, ?_⟩⟩ <;>
        · intro d hd
          have := (List.mem_filter.1 hd).2
          simp only [decide_eq_true_eq] at this
          exact fun hid => absurd hid this
      · rw [if_neg htext]
        refine ⟨?_, fun _ h => absurd h (by simp [htext])⟩
        intro d hd hid
        simp only [List.map_cons, List.mem_cons] at hd
        rcases hd with rfl | hd
        · simp only [if_pos rfl, process_document_save, if_pos htext]
          simp [htext]
        · obtain ⟨d₀, hd₀, rfl⟩ := List.mem_map.1 hd
          rw [if_neg (hfresh d₀ hd₀)] at hid ⊢
          exact absurd hid (hfresh d₀ hd₀)

/-- Witness for `upload_document_no_orphan`: an empty-extraction upload
against an empty state deletes the created row and answers 400. -/
theorem upload_document_no_orphan_witness :
    (∀ d ∈ (upload_document ⟨[], [], [], [], [], ⟨0, 0, 0, 0, 0, 0, 0, 0⟩⟩
        7 true 1 "scan.pdf" "en" (.ok "") 738001).2.documents,
      d.id = 1 → d.processed = true ∧ d.text_content ≠ "") ∧
    (true = true → (.ok "" : Except Unit String) = .ok "" →
      (upload_document ⟨[], [], [], [], [], ⟨0, 0, 0, 0, 0, 0, 0, 0⟩⟩
          7 true 1 "scan.pdf" "en" (.ok "") 738001).1 = 400 ∧
      ∀ d ∈ (upload_document ⟨[], [], [], [], [], ⟨0, 0, 0, 0, 0, 0, 0, 0⟩⟩
          7 true 1 "scan.pdf" "en" (.ok "") 738001).2.documents,
        d.id ≠ 1) :=
  upload_document_no_orphan ⟨[], [], [], [], [], ⟨0, 0, 0, 0, 0, 0, 0, 0⟩⟩
    7 true 1 "scan.pdf" "en" (.ok "") 738001 (by decide)

/-! ### Lemmas about the text-cleaning pipeline (claim C9) -/

theorem hasDoubleNL_cons_ne {c : Char} (l : List Char) (hc : c ≠ '\n') :
    hasDoubleNL (c :: l) = hasDoubleNL l := by
  rw [hasDoubleNL.eq_def]
  split
  · rename_i heq
    rw [List.cons.injEq] at heq
    exact absurd heq.1 hc
  · rename_i x rest heq
    rw [List.cons.injEq] at heq
    rw [heq.2]
  · rename_i heq
    cases heq

theorem hasDoubleNL_nl_cons_ne {a : Char} (r : List Char) (ha : a ≠ '\n') :
    hasDoubleNL ('\n' :: a :: r) = hasDoubleNL (a :: r) := by
  rw [hasDoubleNL.eq_def]
  split
  · rename_i heq
    rw [List.cons.injEq, List.cons.injEq] at heq
    exact absurd heq.2.1 ha
  · rename_i x rest heq
    rw [List.cons.injEq] at heq
    rw [heq.2]
  · rename_i heq
    cases heq

theorem hasTripleNL_cons_ne {c : Char} (l : List Char) (hc : c ≠ '\n') :
    hasTripleNL (c :: l) = hasTripleNL l := by
  rw [hasTripleNL.eq_def]
  split
  · rename_i heq
    rw [List.cons.injEq] at heq
    exact absurd heq.1 hc
  · rename_i x rest heq
    rw [List.cons.injEq] at heq
    rw [heq.2]
  · rename_i heq
    cases heq

theorem hasTripleNL_nl_cons_ne {a : Char} (r : List Char) (ha : a ≠ '\n') :
    hasTripleNL ('\n' :: a :: r) = hasTripleNL (a :: r) := by
  rw [hasTripleNL.eq_def]
  split
  · rename_i heq
    rw [List.cons.injEq, List.cons.injEq] at heq
    exact absurd heq.2.1 ha
  · rename_i x rest heq
    rw [List.cons.injEq] at heq
    rw [heq.2]
  · rename_i heq
    cases heq

/-- Without two adjacent newlines there are no three. -/
theorem hasTripleNL_eq_false (l : List Char) (h : hasDoubleNL l = false) :
    hasTripleNL l = false := by
  induction l with
  | nil => rfl
  | cons c r ih =>
    by_cases hc : c = '\n'
    · subst hc
      cases r with
      | nil => rfl
      | cons a r' =>
        by_cases ha : a = '\n'
        · subst ha
          have hdd : hasDoubleNL ('\n' :: '\n' :: r') = true := rfl
          rw [hdd] at h
          exact absurd h (by decide)
        · rw [hasTripleNL_nl_cons_ne r' ha]
          rw [hasDoubleNL_nl_cons_ne r' ha] at h
          exact ih h
    · rw [hasTripleNL_cons_ne r hc]
      rw [hasDoubleNL_cons_ne r hc] at h
      exact ih h

/-- A newline-free list has no adjacent newlines. -/
theorem hasDoubleNL_of_not_mem (l : List Char) (h : '\n' ∉ l) :
    hasDoubleNL l = false := by
  induction l with
  | nil => rfl
  | cons c r ih =>
    have hc : c ≠ '\n' := fun e => h (e ▸ List.mem_cons_self c r)
    rw [hasDoubleNL_cons_ne r hc]
    exact ih fun hr => h (List.mem_cons_of_mem c hr)

/-- Joining a newline-free block onto a text whose head is not a newline
creates no adjacent newlines. -/
theorem hasDoubleNL_append (l rest : List Char) (hl : '\n' ∉ l)
    (hr : rest.head? ≠ some '\n') (h : hasDoubleNL rest = false) :
    hasDoubleNL (l ++ '\n' :: rest) = false := by
  induction l with
  | nil =>
    cases rest with
    | nil => rfl
    | cons a r' =>
      have ha : a ≠ '\n' := fun e => hr (by rw [e]; rfl)
      rw [List.nil_append, hasDoubleNL_nl_cons_ne r' ha]
      exact h
  | cons c t ih =>
    have hc : c ≠ '\n' := fun e => hl (e ▸ List.mem_cons_self c t)
    rw [List.cons_append, hasDoubleNL_cons_ne _ hc]
    exact ih fun ht => hl (List.mem_cons_of_mem c ht)

/-- Fuel never matters once no triple newline is present: the collapse
loop returns its input. -/
theorem collapseNL_no_triple (fuel : Nat) (l : List Char)
    (h : hasTripleNL l = false) : collapseNL fuel l = l := by
  cases fuel with
  | zero => rfl
  | succ f => rw [collapseNL, h]; rfl

/-- The head surviving `dropWhile` fails the predicate. -/
theorem dropWhile_head_not (p : Char → Bool) (l : List Char) :
    ∀ c ∈ (l.dropWhile p).head?, p c = false := by
  induction l with
  | nil => intro c hc; cases hc
  | cons a t ih =>
    intro c hc
    by_cases ha : p a
    · rw [List.dropWhile_cons_of_pos ha] at hc
      exact ih c hc
    · rw [List.dropWhile_cons_of_neg ha] at hc
      cases hc
      exact Bool.of_not_eq_true ha

/-- `dropWhile` leaves a list alone when its head fails the predicate. -/
theorem dropWhile_eq_self (p : Char → Bool) (l : List Char)
    (h : ∀ c ∈ l.head?, p c = false) : l.dropWhile p = l := by
  cases l with
  | nil => rfl
  | cons a t =>
    exact List.dropWhile_cons_of_neg (by rw [h a rfl]; exact Bool.false_ne_true)

/-- `dropTrailingSpace` is a prefix of its input. -/
theorem dropTrailingSpace_pref (l : List Char) :
    dropTrailingSpace l <+: l := by
  rw [dropTrailingSpace]
  refine List.reverse_suffix.mp ?_
  rw [List.reverse_reverse]
  exact List.dropWhile_suffix pyIsSpace

/-- A prefix keeps the head of a non-empty list. -/
theorem head?_of_pref {l₁ l₂ : List Char} (h : l₁ <+: l₂) {c : Char}
    (hc : l₁.head? = some c) : l₂.head? = some c := by
  obtain ⟨t, rfl⟩ := h
  cases l₁ with
  | nil => cases hc
  | cons a r => exact hc

/-- The head of a stripped list is not whitespace. -/
theorem pyStripList_head (l : List Char) :
    ∀ c ∈ (pyStripList l).head?, pyIsSpace c = false := by
  intro c hc
  have hpre := dropTrailingSpace_pref (l.dropWhile pyIsSpace)
  exact dropWhile_head_not pyIsSpace l c (head?_of_pref hpre hc)

/-- The last character of a stripped list is not whitespace. -/
theorem pyStripList_getLast (l : List Char) :
    ∀ c ∈ (pyStripList l).getLast?, pyIsSpace c = false := by
  intro c hc
  rw [pyStripList, dropTrailingSpace, ← List.head?_reverse,
    List.reverse_reverse] at hc
  exact dropWhile_head_not pyIsSpace _ c hc

/-- Stripping a list whose two ends are not whitespace is the identity. -/
theorem pyStripList_eq_self (l : List Char)
    (hh : ∀ c ∈ l.head?, pyIsSpace c = false)
    (hl : ∀ c ∈ l.getLast?, pyIsSpace c = false) : pyStripList l = l := by
  rw [pyStripList, dropWhile_eq_self _ _ hh, dropTrailingSpace,
    dropWhile_eq_self, List.reverse_reverse]
  intro c hc
  rw [List.head?_reverse] at hc
  exact hl c hc

/-- Stripping never adds characters. -/
theorem pyStripList_subset (l : List Char) : pyStripList l ⊆ l := by
  intro c hc
  rw [pyStripList, dropTrailingSpace] at hc
  rw [List.mem_reverse] at hc
  have h1 := (List.dropWhile_sublist (l := (l.dropWhile pyIsSpace).reverse)
    (p := pyIsSpace)).subset hc
  rw [List.mem_reverse] at h1
  exact (List.dropWhile_sublist (l := l) (p := pyIsSpace)).subset h1

/-- `splitNL` never produces the empty list of pieces. -/
theorem splitNL_ne_nil (l : List Char) : splitNL l ≠ [] := by
  rw [splitNL.eq_def]
  split
  · exact (List.cons_ne_nil _ _)
  · exact (List.cons_ne_nil _ _)
  · rename_i c rest hne
    cases hsp : splitNL rest with
    | nil => exact (List.cons_ne_nil _ _)
    | cons piece pieces => exact (List.cons_ne_nil _ _)

/-- The recursion equation of `splitNL` on a non-newline head. -/
theorem splitNL_cons_ne {c : Char} (r : List Char) (hc : c ≠ '\n')
    {piece : List Char} {pieces : List (List Char)}
    (h : splitNL r = piece :: pieces) :
    splitNL (c :: r) = (c :: piece) :: pieces := by
  rw [splitNL.eq_def]
  split
  · rename_i heq
    cases heq
  · rename_i rest heq
    rw [List.cons.injEq] at heq
    exact absurd heq.1 hc
  · rename_i c' rest hne heq
    rw [List.cons.injEq] at heq
    obtain ⟨rfl, rfl⟩ := heq
    rw [h]

/-- Every piece produced by `splitNL` is newline-free. -/
theorem splitNL_pieces_no_newline (l : List Char) :
    ∀ p ∈ splitNL l, '\n' ∉ p := by
  induction l with
  | nil =>
    intro p hp
    rw [show splitNL [] = [[]] from rfl] at hp
    cases hp with
    | head => exact List.not_mem_nil '\n'
    | tail _ h => cases h
  | cons c r ih =>
    by_cases hc : c = '\n'
    · subst hc
      intro p hp
      rw [show splitNL ('\n' :: r) = [] :: splitNL r from rfl] at hp
      cases hp with
      | head => exact List.not_mem_nil '\n'
      | tail _ h => exact ih p h
    · intro p hp
      cases hsp : splitNL r with
      | nil => exact absurd hsp (splitNL_ne_nil r)
      | cons piece pieces =>
        rw [splitNL_cons_ne r hc hsp] at hp
        cases hp with
        | head =>
          intro hmem
          cases hmem with
          | head => exact hc rfl
          | tail _ h => exact ih piece (hsp ▸ List.mem_cons_self piece pieces) h
        | tail _ h => exact ih p (hsp ▸ List.mem_cons_of_mem piece h)

/-- A newline-free text is a single piece. -/
theorem splitNL_no_newline (l : List Char) (h : '\n' ∉ l) :
    splitNL l = [l] := by
  induction l with
  | nil => rfl
  | cons c r ih =>
    have hc : c ≠ '\n' := fun e => h (e ▸ List.mem_cons_self c r)
    have hr : splitNL r = [r] := ih fun hm => h (List.mem_cons_of_mem c hm)
    exact splitNL_cons_ne r hc hr

/-- Splitting after joining with an explicit newline recovers the first
piece when it is newline-free. -/
theorem splitNL_append (l rest : List Char) (h : '\n' ∉ l) :
    splitNL (l ++ '\n' :: rest) = l :: splitNL rest := by
  induction l with
  | nil =>
    rw [List.nil_append]
    rfl
  | cons c t ih =>
    have hc : c ≠ '\n' := fun e => h (e ▸ List.mem_cons_self c t)
    have ht := ih fun hm => h (List.mem_cons_of_mem c hm)
    rw [List.cons_append]
    exact splitNL_cons_ne _ hc ht

/-- `cleanLine` yields exactly the non-empty strip of its input. -/
theorem cleanLine_eq_some {line p : List Char}
    (h : cleanLine line = some p) : p = pyStripList line ∧ p ≠ [] := by
  rw [cleanLine] at h
  by_cases he : pyStripList line = []
  · rw [if_pos he] at h
    cases h
  · rw [if_neg he] at h
    constructor
    · by_cases hm : ['-', '-', '-'].isPrefixOf (pyStripList line)
      · rw [if_pos hm] at h
        exact (Option.some.inj h).symm
      · rw [if_neg hm] at h
        exact (Option.some.inj h).symm
    · intro hp
      subst hp
      by_cases hm : ['-', '-', '-'].isPrefixOf (pyStripList line)
      · rw [if_pos hm] at h
        exact he (Option.some.inj h)
      · rw [if_neg hm] at h
        exact he (Option.some.inj h)

/-- The head of an append with non-empty left part. -/
theorem head?_append_left {l₁ : List Char} (l₂ : List Char)
    (h : l₁ ≠ []) : (l₁ ++ l₂).head? = l₁.head? := by
  cases l₁ with
  | nil => exact absurd rfl h
  | cons a t => rfl

/-- Joining the cleaned lines: the result is non-empty, has no adjacent
newlines, starts and ends with non-whitespace, and splits back into
exactly the pieces joined. -/
theorem joinNL_props (L : List (List Char)) (hL : L ≠ [])
    (hp : ∀ p ∈ L, p ≠ [] ∧ '\n' ∉ p ∧
      (∀ c ∈ p.head?, pyIsSpace c = false) ∧
      (∀ c ∈ p.getLast?, pyIsSpace c = false)) :
    joinNL L ≠ [] ∧ hasDoubleNL (joinNL L) = false ∧
    (∀ c ∈ (joinNL L).head?, pyIsSpace c = false) ∧
    (∀ c ∈ (joinNL L).getLast?, pyIsSpace c = false) ∧
    splitNL (joinNL L) = L := by
  induction L with
  | nil => exact absurd rfl hL
  | cons l L' ih =>
    obtain ⟨hne, hnl, hhead, hlast⟩ := hp l (List.mem_cons_self l L')
    cases L' with
    | nil =>
      refine ⟨hne, hasDoubleNL_of_not_mem l hnl, hhead, hlast, ?_⟩
      rw [show joinNL [l] = l from rfl]
      exact splitNL_no_newline l hnl
    | cons l' L'' =>
      have hstep : joinNL (l :: l' :: L'') = l ++ '\n' :: joinNL (l' :: L'') :=
        rfl
      obtain ⟨ihne, ihdd, ihhead, ihlast, ihsplit⟩ :=
        ih (List.cons_ne_nil l' L'')
          (fun p hp' => hp p (List.mem_cons_of_mem l hp'))
      have hheadJ : (joinNL (l' :: L'')).head? ≠ some '\n' := by
        intro hJ
        exact absurd (ihhead '\n' hJ) (by decide)
      refine ⟨?_, ?_, ?_, ?_, ?_⟩
      · rw [hstep]
        cases l with
        | nil => exact absurd rfl hne
        | cons a t => exact List.cons_ne_nil a _
      · rw [hstep]
        exact hasDoubleNL_append l _ hnl hheadJ ihdd
      · rw [hstep, head?_append_left _ hne]
        exact hhead
      · rw [hstep, List.getLast?_append_of_ne_nil l
          (List.cons_ne_nil '\n' _)]
        rw [show ('\n' :: joinNL (l' :: L'')) = ['\n'] ++ joinNL (l' :: L'')
          from rfl]
        rw [List.getLast?_append_of_ne_nil ['\n'] ihne]
        exact ihlast
      · rw [hstep, splitNL_append l _ hnl, ihsplit]

/-- C9: for every input string, `clean_extracted_text` returns either the
empty string or a string with no leading or trailing whitespace and no
three consecutive newlines, in which every line is non-empty and equal to
its own strip (blank lines are dropped, surrounding whitespace of each
line is trimmed). -/
theorem clean_extracted_text_normalized (s : String) :
    clean_extracted_text s = "" ∨
    (pyStrip (clean_extracted_text s) = clean_extracted_text s ∧
     hasTripleNL (clean_extracted_text s).data = false ∧
     ∀ piece ∈ splitNL (clean_extracted_text s).data,
       piece ≠ [] ∧ pyStripList piece = piece) := by
  by_cases hs : s = ""
  · left
    rw [clean_extracted_text, if_pos hs]
  · rw [clean_extracted_text, if_neg hs]
    have hp : ∀ p ∈ (splitNL s.data).filterMap cleanLine, p ≠ [] ∧
        '\n' ∉ p ∧ (∀ c ∈ p.head?, pyIsSpace c = false) ∧
        (∀ c ∈ p.getLast?, pyIsSpace c = false) := by
      intro p hpmem
      obtain ⟨line, hline, hcl⟩ := List.mem_filterMap.1 hpmem
      obtain ⟨rfl, hne⟩ := cleanLine_eq_some hcl
      refine ⟨hne, ?_, pyStripList_head line, pyStripList_getLast line⟩
      intro hmem
      exact splitNL_pieces_no_newline s.data line hline
        (pyStripList_subset line hmem)
    cases hLnil : (splitNL s.data).filterMap cleanLine with
    | nil =>
      left
      decide
    | cons p L' =>
      right
      rw [← hLnil]
      obtain ⟨hne, hdd, hhead, hlast, hsplit⟩ :=
        joinNL_props ((splitNL s.data).filterMap cleanLine)
          (by rw [hLnil]; exact List.cons_ne_nil p L') hp
      have htriple := hasTripleNL_eq_false _ hdd
      have hcol := collapseNL_no_triple
        (joinNL ((splitNL s.data).filterMap cleanLine)).length _ htriple
      have hstrip := pyStripList_eq_self _ hhead hlast
      simp only [hcol, hstrip]
      refine ⟨congrArg String.mk hstrip, htriple, ?_⟩
      intro piece hpiece
      have hpiece' : piece ∈ splitNL (joinNL ((splitNL s.data).filterMap
        cleanLine)) := hpiece
      rw [hsplit] at hpiece'
      obtain ⟨hpne, _, hph, hpl⟩ := hp piece hpiece'
      exact ⟨hpne, pyStripList_eq_self piece hph hpl⟩

/-- Witness for `clean_extracted_text_normalized` at a concrete messy
input. -/
theorem clean_extracted_text_normalized_witness :
    pyStrip (clean_extracted_text "  a line \n\n\n   \n  b  ") =
      clean_extracted_text "  a line \n\n\n   \n  b  " ∧
    hasTripleNL (clean_extracted_text "  a line \n\n\n   \n  b  ").data =
      false := by
  rcases clean_extracted_text_normalized "  a line \n\n\n   \n  b  " with
    h | h
  · exact absurd h (by decide)
  · exact ⟨h.1, h.2.1⟩
